import Mathlib

/-
Verification of the SmartSDLC requirements-extraction and workflow subsystem.

The definitions below are a shallow embedding of `server/routes.ts`:
the markdown use-case extraction parser (`extractUseCasesFromResponse`),
the in-memory storage class (`MemStorage`) with its workflow operations
(`createUseCase`, `approveUseCase`, `rejectUseCase`, `acceptRequirement`,
`createAssignment`, `createActivity`, `createDeliverable`,
`getDeliverablesByRequirement`, `generateJiraData`), and the error path of
the `/api/ai/chat` endpoint.  JavaScript strings are modelled as `List Char`,
`Date` values as explicit `Nat` timestamps passed by the caller, and the
`Map` stores as association lists with JavaScript `Map.get`/`Map.set`
semantics.
-/

set_option autoImplicit false
set_option maxRecDepth 8192

namespace SmartSDLC

/-! ## JavaScript string primitives on `List Char` -/

/-- ASCII lower-casing of one character, modelling `String.prototype.toLowerCase`
on the ASCII range (the only range the parser's keyword tests rely on). -/
def lowerChar (c : Char) : Char :=
  if 'A' ≤ c ∧ c ≤ 'Z' then Char.ofNat (c.toNat + 32) else c

/-- Lower-case a whole string. -/
def toLower (s : List Char) : List Char := s.map lowerChar

/-- JavaScript whitespace as used by `\s` and `String.prototype.trim`
(restricted to the ASCII characters that can actually occur here). -/
def isWs (c : Char) : Bool :=
  c == ' ' || c == '\t' || c == '\n' || c == '\r' || c == '\x0b' || c == '\x0c'

/-- Model of `String.prototype.trim`. -/
def trimStr (s : List Char) : List Char :=
  ((s.dropWhile isWs).reverse.dropWhile isWs).reverse

/-- Does `s` start with `p` (model of `String.prototype.startsWith`)? -/
def startsWithL : List Char → List Char → Bool
  | _, [] => true
  | [], _ :: _ => false
  | c :: s, d :: p => c == d && startsWithL s p

/-- Does `s` contain `p` as a substring (model of `String.prototype.includes`)? -/
def includesL : List Char → List Char → Bool
  | [], p => p.isEmpty
  | c :: s, p => startsWithL (c :: s) p || includesL s p

/-- Shorthand turning a Lean string literal into the `List Char` model. -/
def litL (s : String) : List Char := s.toList

/-- Model of `response.split('\n')`: splitting never yields an empty list
(the empty string splits to `[""]`, matching JavaScript). -/
def splitLines : List Char → List (List Char)
  | [] => [[]]
  | c :: rest =>
    match splitLines rest with
    | [] => [[]]
    | l :: ls => if c = '\n' then [] :: l :: ls else (c :: l) :: ls

/-- Model of `.replace(/\*\*/g, '')`: delete every (non-overlapping,
left-to-right) occurrence of the two-character sequence `**`. -/
def removeBold : List Char → List Char
  | [] => []
  | '*' :: '*' :: s => removeBold s
  | c :: s => c :: removeBold s

/-- Model of `.replace(/\s+/g, ' ')`: collapse each maximal whitespace run
into a single space.  The flag records whether the previous character was
part of a whitespace run already emitted. -/
def collapseWsAux : Bool → List Char → List Char
  | _, [] => []
  | prevWs, c :: s =>
    if isWs c then
      if prevWs then collapseWsAux true s else ' ' :: collapseWsAux true s
    else c :: collapseWsAux false s

/-- Collapse whitespace runs to single spaces (`.replace(/\s+/g, ' ')`). -/
def collapseWs (s : List Char) : List Char := collapseWsAux false s

/-- Model of `.replace(/^\s*-\s*/, '')`: drop one leading bullet. -/
def stripLeadingBullet (s : List Char) : List Char :=
  match s.dropWhile isWs with
  | '-' :: r => r.dropWhile isWs
  | _ => s

/-- Model of `.split(':')[0]`. -/
def colonHead (s : List Char) : List Char := s.takeWhile (fun c => c != ':')

/-- Model of `\w` under the `/i` flag: letters, digits and underscore. -/
def isWordChar (c : Char) : Bool := c.isAlpha || c.isDigit || c == '_'

/-! ## The record-start and title-marker patterns of the extraction parser -/

/-- Does `\d+\.\s*\*\*` match at the front of `t`? -/
def numBoldAt (t : List Char) : Bool :=
  !(t.takeWhile Char.isDigit).isEmpty &&
    match t.dropWhile Char.isDigit with
    | '.' :: r => startsWithL (r.dropWhile isWs) (litL "**")
    | _ => false

/-- Does `\*\*\d+\.` match at the front of `t`? -/
def boldNumAt (t : List Char) : Bool :=
  match t with
  | '*' :: '*' :: r =>
    !(r.takeWhile Char.isDigit).isEmpty &&
      match r.dropWhile Char.isDigit with
      | '.' :: _ => true
      | _ => false
  | _ => false

/-- Model of `line.match(/^\s*(\d+\.\s*\*\*|###|\*\*\d+\.|UC-|Use Case|Requirement)/i)`. -/
def matchRecordStart (line : List Char) : Bool :=
  let t := line.dropWhile isWs
  numBoldAt t || startsWithL t (litL "###") || boldNumAt t ||
    startsWithL (toLower t) (litL "uc-") ||
    startsWithL (toLower t) (litL "use case") ||
    startsWithL (toLower t) (litL "requirement")

/-- Model of `line.match(/^\s*(\d+\.\s*\*\*|\*\*\d+\.|###|UC-)/i)`, the pattern
that interrupts description collection. -/
def matchDescBreak (line : List Char) : Bool :=
  let t := line.dropWhile isWs
  numBoldAt t || boldNumAt t || startsWithL t (litL "###") ||
    startsWithL (toLower t) (litL "uc-")

/-- Full record-start detection: the structural pattern, or a short bold line
(`line.includes('**') && line.length < 150 && !lowerLine.includes('each use case')`). -/
def isRecordStartLine (line : List Char) : Bool :=
  matchRecordStart line ||
    (includesL line (litL "**") && decide (line.length < 150) &&
      !includesL (toLower line) (litL "each use case"))

/-- First alternative `\d+\.\s*\*\*` of the title-marker group; returns the
remainder after the match. -/
def altNumBold (t : List Char) : Option (List Char) :=
  if (t.takeWhile Char.isDigit).isEmpty then none
  else
    match t.dropWhile Char.isDigit with
    | '.' :: r =>
      match r.dropWhile isWs with
      | '*' :: '*' :: r2 => some r2
      | _ => none
    | _ => none

/-- Second alternative `\*\*\d+\.` of the title-marker group. -/
def altBoldNum (t : List Char) : Option (List Char) :=
  match t with
  | '*' :: '*' :: r =>
    if (r.takeWhile Char.isDigit).isEmpty then none
    else
      match r.dropWhile Char.isDigit with
      | '.' :: r2 => some r2
      | _ => none
  | _ => none

/-- Third alternative `###` of the title-marker group. -/
def altHashes (t : List Char) : Option (List Char) :=
  match t with
  | '#' :: '#' :: '#' :: r => some r
  | _ => none

/-- Fourth alternative `\*\*` of the title-marker group. -/
def altBold (t : List Char) : Option (List Char) :=
  match t with
  | '*' :: '*' :: r => some r
  | _ => none

/-- Fifth alternative `UC-\w*:?` of the title-marker group (case-insensitive). -/
def altUC (t : List Char) : Option (List Char) :=
  if startsWithL (toLower t) (litL "uc-") then
    match (t.drop 3).dropWhile isWordChar with
    | ':' :: r2 => some r2
    | r => some r
  else none

/-- The alternation of the title-marker group, tried in JavaScript's
left-to-right order. -/
def titleMarkerRest (t : List Char) : Option (List Char) :=
  altNumBold t <|> altBoldNum t <|> altHashes t <|> altBold t <|> altUC t

/-- Model of `line.replace(/^\s*(\d+\.\s*\*\*|\*\*\d+\.|###|\*\*|UC-\w*:?)\s*/i, '')`:
if the anchored pattern matches, drop it (leading whitespace, the group, and
trailing whitespace); otherwise the line is returned unchanged. -/
def stripTitleMarker (line : List Char) : List Char :=
  match titleMarkerRest (line.dropWhile isWs) with
  | some r => r.dropWhile isWs
  | none => line

/-! ## The extraction parser -/

/-- The `type` argument of `extractUseCasesFromResponse`. -/
inductive UCType where
  | functional
  | nonFunctional
  deriving DecidableEq

/-- One extracted `{title, description, priority}` candidate record. -/
structure RawUseCase where
  title : List Char
  description : List Char
  priority : List Char
  deriving DecidableEq, Inhabited

/-- Loop state of the extraction scan (`useCases`, `inSection`,
`currentUseCase`, `collectingDescription`, `descriptionBuffer`). -/
structure ParseState where
  found : List RawUseCase
  inSection : Bool
  current : RawUseCase
  collecting : Bool
  buffer : List Char
  deriving DecidableEq

/-- Initial `currentUseCase = { title: '', description: '', priority: 'medium' }`. -/
def initUseCase : RawUseCase :=
  { title := [], description := [], priority := litL "medium" }

/-- Initial loop state. -/
def initParseState : ParseState :=
  { found := [], inSection := false, current := initUseCase,
    collecting := false, buffer := [] }

/-- Model of the guarded push
`if (currentUseCase.title && currentUseCase.description.length > 100) useCases.push({...currentUseCase})`. -/
def pushIfComplete (acc : List RawUseCase) (uc : RawUseCase) : List RawUseCase :=
  if uc.title ≠ [] ∧ 100 < uc.description.length then acc ++ [uc] else acc

/-- Section-start test for the functional section (substring tests on the
lower-cased line, exactly as in the source). -/
def functionalSectionStart (lowerLine : List Char) : Bool :=
  includesL lowerLine (litL "**functional use cases") ||
    includesL lowerLine (litL "functional use cases (") ||
    (includesL lowerLine (litL "functional") && includesL lowerLine (litL "use case"))

/-- Section-start test for the non-functional section. -/
def nonFunctionalSectionStart (lowerLine : List Char) : Bool :=
  includesL lowerLine (litL "**non-functional requirements") ||
    includesL lowerLine (litL "non-functional requirements (") ||
    (includesL lowerLine (litL "non-functional") &&
      (includesL lowerLine (litL "requirement") || includesL lowerLine (litL "use case")))

/-- Test for the next major section, which terminates the scan. -/
def sectionStop (ty : UCType) (lowerLine : List Char) : Bool :=
  includesL lowerLine (litL "**innovation") ||
    includesL lowerLine (litL "technical recommendations") ||
    includesL lowerLine (litL "**technical") ||
    (includesL lowerLine (litL "**functional") && decide (ty = UCType.nonFunctional)) ||
    (includesL lowerLine (litL "**non-functional") && decide (ty = UCType.functional))

/-- Fallback title `${type} Requirement ${useCases.length + 1}`. -/
def defaultTitle (ty : UCType) (n : Nat) : List Char :=
  litL (if ty = UCType.functional then "Functional" else "Non-Functional") ++
    litL " Requirement " ++ (Nat.repr (n + 1)).toList

/-- Priority inference from the lower-cased header line. -/
def inferPriority (lowerLine : List Char) : List Char :=
  if includesL lowerLine (litL "critical") then litL "Critical"
  else if includesL lowerLine (litL "high") then litL "High"
  else if includesL lowerLine (litL "low") then litL "Low"
  else litL "Medium"

/-- Title extraction from a header line: strip the marker, remove `**`, keep
the part before the first `:`, trim, truncate to 80 characters, and fall
back to a generated title when empty. -/
def buildTitle (ty : UCType) (line : List Char) (n : Nat) : List Char :=
  let t := trimStr (colonHead (removeBold (stripTitleMarker line)))
  let t := if 80 < t.length then t.take 80 else t
  if t = [] then defaultTitle ty n else t

/-- One iteration of the extraction loop over one line.  The returned `Bool`
is the `break` flag raised when a terminating section heading is seen. -/
def stepLine (ty : UCType) (st : ParseState) (line : List Char) : ParseState × Bool :=
  let lowerLine := toLower line
  if ty = UCType.functional ∧ functionalSectionStart lowerLine then
    ({ st with inSection := true }, false)
  else if ty = UCType.nonFunctional ∧ nonFunctionalSectionStart lowerLine then
    ({ st with inSection := true }, false)
  else if st.inSection ∧ sectionStop ty lowerLine then
    ({ st with found := pushIfComplete st.found st.current }, true)
  else if st.inSection then
    if isRecordStartLine line then
      let acc := pushIfComplete st.found st.current
      let buf := trimStr (stripTitleMarker line)
      let cur : RawUseCase :=
        { title := buildTitle ty line acc.length
          description := if buf ≠ [] then trimStr buf else []
          priority := inferPriority lowerLine }
      ({ found := acc, inSection := st.inSection, current := cur,
         collecting := true, buffer := buf }, false)
    else if st.collecting ∧ trimStr line ≠ [] ∧ ¬ matchDescBreak line ∧
        ¬ includesL lowerLine (litL "each use case must include") then
      let buf := st.buffer ++ '\n' :: trimStr line
      if 2000 < buf.length then
        ({ st with
            current := { st.current with description := trimStr (buf.take 2000) }
            collecting := false
            buffer := buf }, false)
      else
        ({ st with
            current := { st.current with description := trimStr buf }
            collecting := true
            buffer := buf }, false)
    else if st.collecting ∧ st.buffer ≠ [] then
      ({ st with current := { st.current with description := trimStr st.buffer } }, false)
    else
      (st, false)
  else
    (st, false)

/-- The scan over all lines, stopping early when the `break` flag is raised. -/
def runLines (ty : UCType) : List (List Char) → ParseState → ParseState
  | [], st => st
  | line :: rest, st =>
    match stepLine ty st line with
    | (st', true) => st'
    | (st', false) => runLines ty rest st'

/-- The padding sentence appended when a cleaned description is shorter
than 100 characters. -/
def fillerText (ty : UCType) : List Char :=
  litL " This " ++
    litL (if ty = UCType.functional then "functional" else "non-functional") ++
    litL " requirement focuses on " ++
    litL (if ty = UCType.functional then
            "business functionality and user interactions"
          else
            "system quality attributes and operational characteristics") ++
    litL " critical for enterprise-grade implementation."

/-- The final per-record cleanup: remove `**`, collapse whitespace, drop a
leading bullet, trim, and pad short descriptions. -/
def cleanupDescription (ty : UCType) (d : List Char) : List Char :=
  let d := trimStr (stripLeadingBullet (collapseWs (removeBold d)))
  if d.length < 100 then d ++ fillerText ty else d

/-- Cleanup applied to one record (`forEach` body). -/
def cleanupUseCase (ty : UCType) (uc : RawUseCase) : RawUseCase :=
  { uc with description := cleanupDescription ty uc.description }

/-- The slice bound `type === 'functional' ? 8 : 7`. -/
def maxExtracted : UCType → Nat
  | UCType.functional => 8
  | UCType.nonFunctional => 7

/-- Model of `extractUseCasesFromResponse(response, type)`.  Note that the
final guarded push runs after the loop even when the loop already pushed the
open record at a terminating section heading and then broke. -/
def extractUseCasesFromResponse (response : List Char) (ty : UCType) : List RawUseCase :=
  let st := runLines ty (splitLines response) initParseState
  let all := pushIfComplete st.found st.current
  (all.map (cleanupUseCase ty)).take (maxExtracted ty)

/-! ## The in-memory store (`MemStorage`)

JavaScript `Map<number, T>` stores are modelled as association lists with
`Map.get` (first matching key) and `Map.set` (replace in place, or append)
semantics; `Date` values are explicit `Nat` timestamps supplied by the
caller; `jsonb` metadata is an association list of string pairs. -/

/-- Lookup, modelling `Map.prototype.get`. -/
def mapGet {α : Type} (m : List (Nat × α)) (id : Nat) : Option α :=
  (m.find? (fun p => p.1 == id)).map (fun p => p.2)

/-- Update, modelling `Map.prototype.set`: an existing key is overwritten in
place, a new key is appended (matching JavaScript iteration order). -/
def mapSet {α : Type} (m : List (Nat × α)) (id : Nat) (v : α) : List (Nat × α) :=
  if m.any (fun p => p.1 == id) then
    m.map (fun p => if p.1 == id then (id, v) else p)
  else m ++ [(id, v)]

/-- A user row (the fields the workflow operations consult). -/
structure User where
  id : Nat
  username : String
  role : String
  deriving DecidableEq

/-- A use case row, as constructed by `MemStorage`. -/
structure UseCase where
  id : Nat
  ucId : Option String
  title : String
  description : String
  ucType : Option String
  actors : Option (List String)
  dependencies : Option (List String)
  priority : Option String
  projectId : Option Nat
  sourceDocumentId : Option Nat
  createdBy : Nat
  status : String
  assignedTo : Option Nat
  assignedGroup : Option String
  metadata : List (String × String)
  createdAt : Nat
  updatedAt : Nat
  deriving DecidableEq

/-- The caller-supplied payload of `createUseCase` as it exists at runtime:
callers in the chat route pass `status: 'draft'` (and other extras) even
though the store overrides it, so the payload model carries those fields. -/
structure InsertUseCaseData where
  ucId : Option String
  title : String
  description : String
  ucType : Option String
  actors : Option (List String)
  dependencies : Option (List String)
  priority : Option String
  projectId : Option Nat
  sourceDocumentId : Option Nat
  status : Option String
  assignedTo : Option Nat
  assignedGroup : Option String
  metadata : Option (List (String × String))
  createdBy : Nat
  deriving DecidableEq

/-- A requirement row. -/
structure Requirement where
  id : Nat
  title : String
  content : String
  sourceUrl : Option String
  status : String
  version : Nat
  projectId : Option Nat
  createdBy : Nat
  acceptedBy : Option Nat
  assignedPm : Option Nat
  acceptedAt : Option Nat
  metadata : List (String × String)
  createdAt : Nat
  updatedAt : Nat
  deriving DecidableEq

/-- A deliverable row. -/
structure Deliverable where
  id : Nat
  requirementId : Option Nat
  useCaseId : Option Nat
  title : String
  description : String
  type : String
  jiraKey : Option String
  priority : String
  storyPoints : Option Nat
  assigneeId : Option Nat
  status : String
  acceptanceCriteria : List String
  dependencies : List String
  labels : List String
  metadata : List (String × String)
  dueDate : Option Nat
  estimatedHours : Option Nat
  createdAt : Nat
  updatedAt : Nat
  deriving DecidableEq

/-- An assignment row. -/
structure Assignment where
  id : Nat
  type : String
  entityId : Nat
  fromUserId : Nat
  toUserId : Option Nat
  toGroup : Option String
  status : String
  comments : Option String
  dueDate : Option Nat
  createdAt : Nat
  updatedAt : Nat
  deriving DecidableEq

/-- The caller-supplied payload of `createAssignment`. -/
structure InsertAssignmentData where
  type : String
  entityId : Nat
  toUserId : Option Nat
  toGroup : Option String
  comments : Option String
  dueDate : Option Nat
  fromUserId : Nat
  deriving DecidableEq

/-- An activity-log row. -/
structure Activity where
  id : Nat
  userId : Nat
  action : String
  entityType : Option String
  entityId : Option Nat
  details : Option String
  metadata : List (String × String)
  createdAt : Nat
  deriving DecidableEq

/-- The caller-supplied payload of `createActivity`. -/
structure InsertActivityData where
  action : String
  entityType : Option String
  entityId : Option Nat
  details : Option String
  metadata : List (String × String)
  userId : Nat
  deriving DecidableEq

/-- The caller-supplied payload of `createDeliverable`. -/
structure InsertDeliverableData where
  requirementId : Option Nat
  useCaseId : Option Nat
  title : String
  description : String
  type : String
  priority : Option String
  storyPoints : Option Nat
  assigneeId : Option Nat
  status : Option String
  acceptanceCriteria : Option (List String)
  dependencies : Option (List String)
  labels : Option (List String)
  metadata : Option (List (String × String))
  dueDate : Option Nat
  estimatedHours : Option Nat
  deriving DecidableEq

/-- The mutable state of `MemStorage` (the maps and id counters used by the
operations under verification). -/
structure MemStorage where
  users : List (Nat × User)
  useCases : List (Nat × UseCase)
  assignments : List (Nat × Assignment)
  activities : List (Nat × Activity)
  requirements : List (Nat × Requirement)
  deliverables : List (Nat × Deliverable)
  currentUseCaseId : Nat
  currentAssignmentId : Nat
  currentActivityId : Nat
  currentRequirementId : Nat
  currentDeliverableId : Nat
  deriving DecidableEq

/-- Model of `MemStorage.createUseCase`: the object literal spreads the
caller data first and then writes `status`, `assignedTo`, `assignedGroup`
and `metadata`, so those four fields always take the literal values
regardless of what the caller supplied. -/
def MemStorage.createUseCase (st : MemStorage) (d : InsertUseCaseData)
    (now : Nat) : UseCase × MemStorage :=
  let uc : UseCase :=
    { id := st.currentUseCaseId
      ucId := d.ucId
      title := d.title
      description := d.description
      ucType := d.ucType
      actors := d.actors
      dependencies := d.dependencies
      priority := d.priority
      projectId := d.projectId
      sourceDocumentId := d.sourceDocumentId
      createdBy := d.createdBy
      status := "Pending Review"
      assignedTo := none
      assignedGroup := none
      metadata := []
      createdAt := now
      updatedAt := now }
  (uc, { st with
          useCases := mapSet st.useCases uc.id uc
          currentUseCaseId := st.currentUseCaseId + 1 })

/-- Model of `MemStorage.approveUseCase`: no status precondition is checked;
any existing use case is overwritten with status `"Approved"` and
`assignedTo := approvedBy`. -/
def MemStorage.approveUseCase (st : MemStorage) (id approvedBy : Nat)
    (now : Nat) : Option UseCase × MemStorage :=
  match mapGet st.useCases id with
  | none => (none, st)
  | some uc =>
    let updated := { uc with
                      status := "Approved"
                      assignedTo := some approvedBy
                      updatedAt := now }
    (some updated, { st with useCases := mapSet st.useCases id updated })

/-- Model of `MemStorage.rejectUseCase`. -/
def MemStorage.rejectUseCase (st : MemStorage) (id rejectedBy : Nat)
    (reason : Option String) (now : Nat) : Option UseCase × MemStorage :=
  match mapGet st.useCases id with
  | none => (none, st)
  | some uc =>
    let updated := { uc with
                      status := "Rejected"
                      assignedTo := some rejectedBy
                      metadata := uc.metadata ++
                        (match reason with
                         | some r => [("rejectionReason", r)]
                         | none => [])
                      updatedAt := now }
    (some updated, { st with useCases := mapSet st.useCases id updated })

/-- Model of `MemStorage.createAssignment`. -/
def MemStorage.createAssignment (st : MemStorage) (d : InsertAssignmentData)
    (now : Nat) : Assignment × MemStorage :=
  let a : Assignment :=
    { id := st.currentAssignmentId
      type := d.type
      entityId := d.entityId
      fromUserId := d.fromUserId
      toUserId := d.toUserId
      toGroup := d.toGroup
      status := "pending"
      comments := d.comments
      dueDate := d.dueDate
      createdAt := now
      updatedAt := now }
  (a, { st with
         assignments := mapSet st.assignments a.id a
         currentAssignmentId := st.currentAssignmentId + 1 })

/-- Model of `MemStorage.createActivity`. -/
def MemStorage.createActivity (st : MemStorage) (d : InsertActivityData)
    (now : Nat) : Activity × MemStorage :=
  let a : Activity :=
    { id := st.currentActivityId
      userId := d.userId
      action := d.action
      entityType := d.entityType
      entityId := d.entityId
      details := d.details
      metadata := d.metadata
      createdAt := now }
  (a, { st with
         activities := mapSet st.activities a.id a
         currentActivityId := st.currentActivityId + 1 })

/-- Model of `MemStorage.acceptRequirement`: no idempotency guard; every call
on an existing requirement re-stamps `acceptedBy`/`acceptedAt`. -/
def MemStorage.acceptRequirement (st : MemStorage) (id acceptedBy : Nat)
    (now : Nat) : Option Requirement × MemStorage :=
  match mapGet st.requirements id with
  | none => (none, st)
  | some r =>
    let updated := { r with
                      status := "accepted"
                      acceptedBy := some acceptedBy
                      acceptedAt := some now
                      updatedAt := now }
    (some updated, { st with requirements := mapSet st.requirements id updated })

/-- Model of `MemStorage.createDeliverable` (with its `||` defaults). -/
def MemStorage.createDeliverable (st : MemStorage) (d : InsertDeliverableData)
    (now : Nat) : Deliverable × MemStorage :=
  let dv : Deliverable :=
    { id := st.currentDeliverableId
      requirementId := d.requirementId
      useCaseId := d.useCaseId
      title := d.title
      description := d.description
      type := d.type
      jiraKey := none
      priority := d.priority.getD "medium"
      storyPoints := d.storyPoints
      assigneeId := d.assigneeId
      status := d.status.getD "todo"
      acceptanceCriteria := d.acceptanceCriteria.getD []
      dependencies := d.dependencies.getD []
      labels := d.labels.getD []
      metadata := d.metadata.getD []
      dueDate := d.dueDate
      estimatedHours := d.estimatedHours
      createdAt := now
      updatedAt := now }
  (dv, { st with
          deliverables := mapSet st.deliverables dv.id dv
          currentDeliverableId := st.currentDeliverableId + 1 })

/-- Model of `MemStorage.getDeliverablesByRequirement`: filter the stored
deliverables (in map iteration order) by the parent requirement id. -/
def MemStorage.getDeliverablesByRequirement (st : MemStorage)
    (requirementId : Nat) : List Deliverable :=
  (st.deliverables.map (fun p => p.2)).filter
    (fun d => d.requirementId == some requirementId)

/-- One record of the JSON export view produced by `generateJiraData`. -/
structure JiraIssue where
  summary : String
  description : String
  issueType : String
  priority : String
  storyPoints : Option Nat
  acceptanceCriteria : List String
  labels : List String
  components : List String
  fixVersions : List String
  deriving DecidableEq

/-- The per-deliverable projection inside `generateJiraData`. -/
def jiraProjection (d : Deliverable) : JiraIssue :=
  { summary := d.title
    description := d.description
    issueType := d.type
    priority := d.priority
    storyPoints := d.storyPoints
    acceptanceCriteria := d.acceptanceCriteria
    labels := d.labels
    components := []
    fixVersions := [] }

/-- Model of `MemStorage.generateJiraData`: it reads the deliverables of the
requirement and maps them through the projection; the store is threaded
explicitly to express that the method performs no writes. -/
def MemStorage.generateJiraData (st : MemStorage) (requirementId : Nat) :
    List JiraIssue × MemStorage :=
  ((MemStorage.getDeliverablesByRequirement st requirementId).map jiraProjection, st)

/-! ## The `/api/ai/chat` error path -/

/-- An error caught by the chat endpoint's `catch` block (the message of the
thrown error; the block treats every error alike, including exhaustion of
the model cascade). -/
def ChatError : Type := String

/-- The JSON body sent by the chat endpoint's `catch` block. -/
structure ChatErrorBody where
  message : String
  response : String
  suggestions : List String
  deriving DecidableEq

/-- An HTTP response as produced by `res.status(...).json(...)`. -/
structure HttpResponse where
  status : Nat
  body : ChatErrorBody
  deriving DecidableEq

/-- Model of the `catch` handler of `app.post("/api/ai/chat")`: every error,
`ModelUnavailable` included, is answered with HTTP status 500 and an
apologetic JSON body. -/
def chatHandlerCatch (_e : ChatError) : HttpResponse :=
  { status := 500
    body :=
      { message := "AI service temporarily unavailable"
        response := "I\x27m having trouble connecting to the AI service. Please try again in a moment."
        suggestions := ["Try again later", "Check system status"] } }

/-! ## Helper lemmas -/

theorem find?_append_of_any_eq_false {α : Type} {p : α → Bool} :
    ∀ {l₁ : List α}, l₁.any p = false → ∀ (l₂ : List α),
      (l₁ ++ l₂).find? p = l₂.find? p := by
  intro l₁
  induction l₁ with
  | nil => intro _ l₂; rfl
  | cons a t ih =>
    intro h l₂
    rw [List.any_cons, Bool.or_eq_false_iff] at h
    rw [List.cons_append, List.find?_cons_of_neg _ (by simp [h.1]), ih h.2]

theorem find?_map_overwrite {α : Type} (id : Nat) (v : α) :
    ∀ (m : List (Nat × α)), m.any (fun p => p.1 == id) = true →
      (m.map (fun p => if p.1 == id then (id, v) else p)).find?
          (fun p => p.1 == id) = some (id, v) := by
  intro m
  induction m with
  | nil => intro h; simp at h
  | cons a t ih =>
    intro h
    by_cases hab : a.1 == id
    · rw [List.map_cons, if_pos hab, List.find?_cons_of_pos _ (by simp)]
    · have h' : t.any (fun p => p.1 == id) = true := by
        rw [List.any_cons, Bool.or_eq_true] at h
        rcases h with h | h
        · exact absurd h hab
        · exact h
      rw [List.map_cons, if_neg hab, List.find?_cons_of_neg _ (by simpa using hab), ih h']

/-- Reading back the key just written, under JavaScript `Map` semantics. -/
theorem mapGet_mapSet_self {α : Type} (m : List (Nat × α)) (id : Nat) (v : α) :
    mapGet (mapSet m id v) id = some v := by
  unfold mapGet mapSet
  cases ha : m.any (fun p => p.1 == id)
  · rw [if_neg (by simp [ha]), find?_append_of_any_eq_false ha,
      List.find?_cons_of_pos _ (by simp)]
    rfl
  · rw [if_pos (by simp [ha]), find?_map_overwrite id v m ha]
    rfl

/-- The padding branch of the cleanup guarantees a 100-character floor on
every cleaned description, whatever the raw input was. -/
theorem le_length_cleanupDescription (ty : UCType) (d : List Char) :
    100 ≤ (cleanupDescription ty d).length := by
  unfold cleanupDescription
  by_cases h : (trimStr (stripLeadingBullet (collapseWs (removeBold d)))).length < 100
  · rw [if_pos h, List.length_append]
    have hf : 100 ≤ (fillerText ty).length := by cases ty <;> decide
    omega
  · rw [if_neg h]
    omega

theorem mem_pushIfComplete {acc : List RawUseCase} {cur uc : RawUseCase}
    (h : uc ∈ pushIfComplete acc cur) :
    uc ∈ acc ∨ (uc = cur ∧ cur.title ≠ [] ∧ 100 < cur.description.length) := by
  unfold pushIfComplete at h
  split at h
  · rename_i hc
    rcases List.mem_append.1 h with h1 | h1
    · exact Or.inl h1
    · exact Or.inr ⟨List.mem_singleton.1 h1, hc⟩
  · exact Or.inl h

/-- Each loop step either leaves the accumulated record list unchanged or
extends it through the guarded push. -/
theorem stepLine_found (ty : UCType) (st : ParseState) (line : List Char) :
    (stepLine ty st line).1.found = st.found ∨
    (stepLine ty st line).1.found = pushIfComplete st.found st.current := by
  simp only [stepLine]
  split_ifs <;> simp

/-- Every record in the accumulated list has a non-empty title. -/
def TitledAll (l : List RawUseCase) : Prop := ∀ uc ∈ l, uc.title ≠ []

theorem titledAll_pushIfComplete {acc : List RawUseCase} {cur : RawUseCase}
    (h : TitledAll acc) : TitledAll (pushIfComplete acc cur) := by
  intro uc hm
  rcases mem_pushIfComplete hm with h1 | ⟨rfl, h2, _⟩
  · exact h uc h1
  · exact h2

theorem runLines_titled (ty : UCType) :
    ∀ (ls : List (List Char)) (st : ParseState),
      TitledAll st.found → TitledAll (runLines ty ls st).found := by
  intro ls
  induction ls with
  | nil => intro st h; exact h
  | cons line rest ih =>
    intro st h
    have hstep : TitledAll (stepLine ty st line).1.found := by
      rcases stepLine_found ty st line with he | he
      · rw [he]; exact h
      · rw [he]; exact titledAll_pushIfComplete h
    rcases hs : stepLine ty st line with ⟨st', flag⟩
    rw [hs] at hstep
    cases flag
    · simp only [runLines, hs]
      exact ih st' hstep
    · simp only [runLines, hs]
      exact hstep

/-- Scan state reached while no record-start pattern has fired: no record is
open, nothing has been collected, nothing has been emitted. -/
def EmptyScan (st : ParseState) : Prop :=
  st.found = [] ∧ st.current.title = [] ∧ st.collecting = false ∧ st.buffer = []

theorem pushIfComplete_untitled {acc : List RawUseCase} {cur : RawUseCase}
    (h : cur.title = []) : pushIfComplete acc cur = acc := by
  unfold pushIfComplete
  rw [if_neg]
  intro hc
  exact hc.1 h

theorem stepLine_emptyScan {ty : UCType} {st : ParseState} {line : List Char}
    (h : EmptyScan st) (hline : isRecordStartLine line = false) :
    EmptyScan (stepLine ty st line).1 := by
  obtain ⟨h1, h2, h3, h4⟩ := h
  simp only [stepLine]
  split_ifs <;>
    first
      | exact ⟨h1, h2, h3, h4⟩
      | exact ⟨by rw [pushIfComplete_untitled h2]; exact h1, h2, h3, h4⟩
      | simp_all

theorem runLines_emptyScan (ty : UCType) :
    ∀ (ls : List (List Char)) (st : ParseState), EmptyScan st →
      (∀ l ∈ ls, isRecordStartLine l = false) → EmptyScan (runLines ty ls st) := by
  intro ls
  induction ls with
  | nil => intro st h _; exact h
  | cons line rest ih =>
    intro st h hl
    have hline : isRecordStartLine line = false := hl line (by simp)
    have hstep : EmptyScan (stepLine ty st line).1 := stepLine_emptyScan h hline
    rcases hs : stepLine ty st line with ⟨st', flag⟩
    rw [hs] at hstep
    cases flag
    · simp only [runLines, hs]
      exact ih st' hstep (fun l hm => hl l (by simp [hm]))
    · simp only [runLines, hs]
      exact hstep

/-! ## Test fixtures -/

/-- An empty store with all id counters at their initial value `1`. -/
def emptyStore : MemStorage :=
  { users := [], useCases := [], assignments := [], activities := [],
    requirements := [], deliverables := [], currentUseCaseId := 1,
    currentAssignmentId := 1, currentActivityId := 1,
    currentRequirementId := 1, currentDeliverableId := 1 }

/-- A use case that has already been rejected. -/
def rejectedUseCase : UseCase :=
  { id := 1, ucId := some "UC-F-001", title := "Trade capture",
    description := "Capture derivative trades in real time.",
    ucType := some "functional", actors := none, dependencies := none,
    priority := some "High", projectId := some 1, sourceDocumentId := none,
    createdBy := 1, status := "Rejected", assignedTo := some 2,
    assignedGroup := none, metadata := [], createdAt := 0, updatedAt := 0 }

/-- A store holding only the rejected use case. -/
def storeWithRejected : MemStorage :=
  { emptyStore with useCases := [(1, rejectedUseCase)] }

/-- A use case still awaiting review. -/
def pendingUseCase : UseCase :=
  { id := 1, ucId := some "UC-F-001", title := "Trade capture",
    description := "Capture derivative trades in real time.",
    ucType := some "functional", actors := none, dependencies := none,
    priority := some "High", projectId := some 1, sourceDocumentId := none,
    createdBy := 1, status := "Pending Review", assignedTo := none,
    assignedGroup := none, metadata := [], createdAt := 0, updatedAt := 0 }

/-- A user holding the architect role. -/
def architectUser : User :=
  { id := 2, username := "alex.arch.maker", role := "architect" }

/-- A store with a pending use case and an architect-role user, and with
empty assignment and activity logs. -/
def storeWithArchitect : MemStorage :=
  { emptyStore with users := [(2, architectUser)], useCases := [(1, pendingUseCase)] }

/-- A requirement still in draft status. -/
def draftRequirement : Requirement :=
  { id := 1, title := "EMIR reporting spec",
    content := "Report derivative trades to an authorized trade repository.",
    sourceUrl := none, status := "draft", version := 1, projectId := none,
    createdBy := 1, acceptedBy := none, assignedPm := none, acceptedAt := none,
    metadata := [], createdAt := 0, updatedAt := 0 }

/-- A store holding only the draft requirement. -/
def storeWithDraft : MemStorage :=
  { emptyStore with requirements := [(1, draftRequirement)] }

/-- A well-formed markdown response with a functional-section heading and two
use-case headers; the first header accumulates a description of at most 100
characters, the second a longer one. -/
def twoHeaderResponse : List Char :=
  litL "**Functional Use Cases**\n1. **Login**\nUser logs in quickly.\n2. **Search**\nThe search capability lets a signed in member look for records by several fields and immediately presents matching results ranked by relevance."

/-! ## Claim theorems -/

/-- Claim C1, counterexample: the response `"hello world"` contains zero
record-start patterns, yet extraction returns the empty list — not the
single catch-all record the claim requires; no catch-all synthesis exists
in `extractUseCasesFromResponse`. -/
theorem extract_no_pattern_counterexample :
    ((splitLines (litL "hello world")).all (fun l => !isRecordStartLine l)) = true ∧
    extractUseCasesFromResponse (litL "hello world") UCType.functional = [] := by
  decide

/-- Claim C1 (amended): for every LLM response in which the parser detects
zero record-start patterns, extraction returns the empty list — no record is
ever opened, so nothing can be emitted and no catch-all record is
synthesized. -/
theorem extract_no_pattern_empty (response : List Char) (ty : UCType)
    (h : ∀ l ∈ splitLines response, isRecordStartLine l = false) :
    extractUseCasesFromResponse response ty = [] := by
  have h0 : EmptyScan initParseState := ⟨rfl, rfl, rfl, rfl⟩
  obtain ⟨hf, ht, _, _⟩ := runLines_emptyScan ty (splitLines response) initParseState h0 h
  simp only [extractUseCasesFromResponse]
  rw [pushIfComplete_untitled ht, hf]
  simp

/-- Witness for C1's amended theorem at the concrete response `"hello world"`. -/
theorem extract_no_pattern_empty_witness :
    extractUseCasesFromResponse (litL "hello world") UCType.functional = [] :=
  extract_no_pattern_empty (litL "hello world") UCType.functional (by decide)

/-- Claim C5, counterexample: `twoHeaderResponse` contains exactly two
use-case header lines, yet extraction returns exactly one record (the first
header's accumulated description never exceeds 100 characters, so its record
is dropped at the next header). -/
theorem extract_header_count_counterexample :
    ((splitLines twoHeaderResponse).countP (fun l => matchRecordStart l)) = 2 ∧
    (extractUseCasesFromResponse twoHeaderResponse UCType.functional).length = 1 := by
  decide

/-- Claim C5 (amended): every record extraction actually returns has a
non-empty title and a description of at least 100 characters after cleanup
(cleanup pads anything the normalization shrank below 100).  No per-header
count is asserted: a header whose accumulated description never exceeds 100
characters yields no record, and a record still open at a terminating
section heading is pushed twice (once at the break, once by the
unconditional final save), so the record count need not equal the header
count in either direction. -/
theorem extract_records_titled_and_padded (response : List Char) (ty : UCType) :
    ∀ uc ∈ extractUseCasesFromResponse response ty,
      uc.title ≠ [] ∧ 100 ≤ uc.description.length := by
  intro uc hm
  unfold extractUseCasesFromResponse at hm
  have hm' : uc ∈ (pushIfComplete
      (runLines ty (splitLines response) initParseState).found
      (runLines ty (splitLines response) initParseState).current).map (cleanupUseCase ty) :=
    List.take_subset _ _ hm
  rcases List.mem_map.1 hm' with ⟨uc0, hm0, rfl⟩
  have htitled : TitledAll (pushIfComplete
      (runLines ty (splitLines response) initParseState).found
      (runLines ty (splitLines response) initParseState).current) :=
    titledAll_pushIfComplete (runLines_titled ty _ _ (by intro x hx; simp [initParseState] at hx))
  constructor
  · simpa [cleanupUseCase] using htitled uc0 hm0
  · simpa [cleanupUseCase] using le_length_cleanupDescription ty uc0.description

/-- Witness for C5's amended theorem at the concrete two-header response. -/
theorem extract_records_titled_and_padded_witness :
    ((extractUseCasesFromResponse twoHeaderResponse UCType.functional).headD default).title ≠ [] ∧
    100 ≤ ((extractUseCasesFromResponse twoHeaderResponse UCType.functional).headD
      default).description.length :=
  extract_records_titled_and_padded twoHeaderResponse UCType.functional _ (by decide)

/-- Claim C8: the extraction parser is a total function of its input — it is
defined by structural recursion over the line list (so it terminates on every
input, malformed ones included, and can raise no exception), and for every
input it returns a list of at most 8 (functional) or 7 (non-functional)
records. -/
theorem extract_total_bounded (response : List Char) (ty : UCType) :
    (extractUseCasesFromResponse response ty).length ≤ maxExtracted ty := by
  exact List.length_take_le _ _

/-- Claim C2, counterexample: approving a use case whose status is
`"Rejected"` succeeds — the call returns the updated record and the store now
holds it with status `"Approved"`, instead of failing with `InvalidTransition`
and leaving the status unchanged. -/
theorem approve_rejected_counterexample :
    ((MemStorage.approveUseCase storeWithRejected 1 7 5).1.map UseCase.status
        = some "Approved") ∧
    ((mapGet (MemStorage.approveUseCase storeWithRejected 1 7 5).2.useCases 1).map
        UseCase.status = some "Approved") := by
  decide

/-- Claim C2 (amended): `approveUseCase` checks only existence, not status:
for any stored use case, whatever its current status (rejected and approved
included), the call succeeds and overwrites the record with status
`"Approved"` and `assignedTo` set to the approver. -/
theorem approveUseCase_no_status_guard (st : MemStorage) (id approver now : Nat)
    (uc : UseCase) (h : mapGet st.useCases id = some uc) :
    (MemStorage.approveUseCase st id approver now).1 =
      some { uc with status := "Approved", assignedTo := some approver, updatedAt := now } ∧
    mapGet (MemStorage.approveUseCase st id approver now).2.useCases id =
      some { uc with status := "Approved", assignedTo := some approver, updatedAt := now } := by
  unfold MemStorage.approveUseCase
  rw [h]
  exact ⟨rfl, mapGet_mapSet_self _ _ _⟩

/-- Witness for C2's amended theorem on the store holding a rejected use case. -/
theorem approveUseCase_no_status_guard_witness :
    (MemStorage.approveUseCase storeWithRejected 1 7 5).1 =
      some { rejectedUseCase with status := "Approved", assignedTo := some 7, updatedAt := 5 } ∧
    mapGet (MemStorage.approveUseCase storeWithRejected 1 7 5).2.useCases 1 =
      some { rejectedUseCase with status := "Approved", assignedTo := some 7, updatedAt := 5 } :=
  approveUseCase_no_status_guard storeWithRejected 1 7 5 rejectedUseCase (by decide)

/-- Claim C3, counterexample: accepting the same requirement twice, at times
10 and 20, yields `acceptedAt = 10` after the first call but `acceptedAt = 20`
after the second — the timestamp is re-stamped, not preserved. -/
theorem accept_restamps_counterexample :
    ((MemStorage.acceptRequirement storeWithDraft 1 5 10).1.bind Requirement.acceptedAt
        = some 10) ∧
    ((MemStorage.acceptRequirement
        (MemStorage.acceptRequirement storeWithDraft 1 5 10).2 1 6 20).1.bind
        Requirement.acceptedAt = some 20) ∧
    (10 : Nat) ≠ 20 := by
  decide

/-- Claim C3 (amended): `acceptRequirement` has no idempotency guard — every
call on an existing requirement (already accepted or not) re-stamps
`acceptedBy`/`acceptedAt` with the current call's actor and time, so a second
call yields its own timestamp; the method touches no activity log at all, so
in particular no second acceptance log entry is created. -/
theorem acceptRequirement_not_idempotent (st : MemStorage) (id u1 t1 u2 t2 : Nat)
    (r : Requirement) (h : mapGet st.requirements id = some r) :
    (MemStorage.acceptRequirement st id u1 t1).1 =
      some { r with status := "accepted", acceptedBy := some u1,
                    acceptedAt := some t1, updatedAt := t1 } ∧
    (MemStorage.acceptRequirement
        (MemStorage.acceptRequirement st id u1 t1).2 id u2 t2).1 =
      some { r with status := "accepted", acceptedBy := some u2,
                    acceptedAt := some t2, updatedAt := t2 } ∧
    (MemStorage.acceptRequirement
        (MemStorage.acceptRequirement st id u1 t1).2 id u2 t2).2.activities
      = st.activities := by
  simp [MemStorage.acceptRequirement, h, mapGet_mapSet_self]

/-- Witness for C3's amended theorem on the store holding a draft requirement. -/
theorem acceptRequirement_not_idempotent_witness :
    (MemStorage.acceptRequirement storeWithDraft 1 5 10).1 =
      some { draftRequirement with status := "accepted", acceptedBy := some 5,
                                   acceptedAt := some 10, updatedAt := 10 } ∧
    (MemStorage.acceptRequirement
        (MemStorage.acceptRequirement storeWithDraft 1 5 10).2 1 6 20).1 =
      some { draftRequirement with status := "accepted", acceptedBy := some 6,
                                   acceptedAt := some 20, updatedAt := 20 } ∧
    (MemStorage.acceptRequirement
        (MemStorage.acceptRequirement storeWithDraft 1 5 10).2 1 6 20).2.activities
      = storeWithDraft.activities :=
  acceptRequirement_not_idempotent storeWithDraft 1 5 10 6 20 draftRequirement (by decide)

/-- Claim C4, counterexample: a store contains a pending-review use case and
an architect-role user; approving the use case flips its status to
`"Approved"` but creates no Assignment and no ActivityLogEntry — both maps
stay empty, contradicting the claimed side effects. -/
theorem approve_no_side_effects_counterexample :
    (storeWithArchitect.users.any (fun p => p.2.role == "architect") = true) ∧
    ((MemStorage.approveUseCase storeWithArchitect 1 7 5).1.map UseCase.status
        = some "Approved") ∧
    (MemStorage.approveUseCase storeWithArchitect 1 7 5).2.assignments = [] ∧
    (MemStorage.approveUseCase storeWithArchitect 1 7 5).2.activities = [] := by
  decide

/-- Claim C4 (amended): approving a pending-review use case sets its status
to `"Approved"` (and `assignedTo` to the approver), but `approveUseCase`
creates no ActivityLogEntry and no Assignment, whether or not an
architect-role user exists — the activity and assignment maps are returned
unchanged. -/
theorem approveUseCase_no_log_no_assignment (st : MemStorage) (id approver now : Nat)
    (uc : UseCase) (h : mapGet st.useCases id = some uc)
    (_hp : uc.status = "Pending Review") :
    ((MemStorage.approveUseCase st id approver now).1.map UseCase.status
        = some "Approved") ∧
    (MemStorage.approveUseCase st id approver now).2.activities = st.activities ∧
    (MemStorage.approveUseCase st id approver now).2.assignments = st.assignments := by
  unfold MemStorage.approveUseCase
  rw [h]
  exact ⟨rfl, rfl, rfl⟩

/-- Witness for C4's amended theorem on the architect store. -/
theorem approveUseCase_no_log_no_assignment_witness :
    ((MemStorage.approveUseCase storeWithArchitect 1 7 5).1.map UseCase.status
        = some "Approved") ∧
    (MemStorage.approveUseCase storeWithArchitect 1 7 5).2.activities
      = storeWithArchitect.activities ∧
    (MemStorage.approveUseCase storeWithArchitect 1 7 5).2.assignments
      = storeWithArchitect.assignments :=
  approveUseCase_no_log_no_assignment storeWithArchitect 1 7 5 pendingUseCase
    (by decide) (by decide)

/-- Claim C6, counterexample: the chat endpoint's catch handler answers an
exhausted model cascade with HTTP status 500 — an error status — so the
claim that the HTTP response is not an error status is false (the apology
text travels in the body of that 500 response). -/
theorem chat_error_is_http_500_counterexample :
    (chatHandlerCatch "ModelUnavailable").status = 500 ∧
    400 ≤ (chatHandlerCatch "ModelUnavailable").status := by
  decide

/-- Claim C6 (amended): every error reaching the chat endpoint's catch
block, model-cascade exhaustion included, is answered with HTTP status 500
whose JSON body carries a user-facing apology message and suggestions. -/
theorem chatHandlerCatch_apology_with_500 (e : ChatError) :
    (chatHandlerCatch e).status = 500 ∧
    (chatHandlerCatch e).body.response =
      "I\x27m having trouble connecting to the AI service. Please try again in a moment." ∧
    (chatHandlerCatch e).body.suggestions = ["Try again later", "Check system status"] :=
  ⟨rfl, rfl, rfl⟩

/-- Claim C7: `generateJiraData` is a pure projection of the requirement's
stored deliverables — the store is returned unchanged, the export has
exactly one record per deliverable, and every exported field equals the
corresponding deliverable field. -/
theorem generateJiraData_projection (st : MemStorage) (rid : Nat) :
    (MemStorage.generateJiraData st rid).2 = st ∧
    (MemStorage.generateJiraData st rid).1.length =
      (MemStorage.getDeliverablesByRequirement st rid).length ∧
    ∀ k : Nat,
      ((MemStorage.generateJiraData st rid).1[k]?).map JiraIssue.summary =
        ((MemStorage.getDeliverablesByRequirement st rid)[k]?).map Deliverable.title ∧
      ((MemStorage.generateJiraData st rid).1[k]?).map JiraIssue.description =
        ((MemStorage.getDeliverablesByRequirement st rid)[k]?).map Deliverable.description ∧
      ((MemStorage.generateJiraData st rid).1[k]?).map JiraIssue.issueType =
        ((MemStorage.getDeliverablesByRequirement st rid)[k]?).map Deliverable.type ∧
      ((MemStorage.generateJiraData st rid).1[k]?).map JiraIssue.priority =
        ((MemStorage.getDeliverablesByRequirement st rid)[k]?).map Deliverable.priority ∧
      ((MemStorage.generateJiraData st rid).1[k]?).map JiraIssue.storyPoints =
        ((MemStorage.getDeliverablesByRequirement st rid)[k]?).map Deliverable.storyPoints ∧
      ((MemStorage.generateJiraData st rid).1[k]?).map JiraIssue.acceptanceCriteria =
        ((MemStorage.getDeliverablesByRequirement st rid)[k]?).map
          Deliverable.acceptanceCriteria ∧
      ((MemStorage.generateJiraData st rid).1[k]?).map JiraIssue.labels =
        ((MemStorage.getDeliverablesByRequirement st rid)[k]?).map Deliverable.labels := by
  refine ⟨rfl, by simp [MemStorage.generateJiraData], ?_⟩
  intro k
  cases hds : (MemStorage.getDeliverablesByRequirement st rid)[k]? with
  | none => simp [MemStorage.generateJiraData, List.getElem?_map, hds]
  | some d => simp [MemStorage.generateJiraData, List.getElem?_map, hds, jiraProjection]

/-- Claim C9: accepting a requirement id that is absent from the store
returns no requirement and leaves the whole store (the requirements map
included) completely unchanged. -/
theorem acceptRequirement_missing_id (st : MemStorage) (id u now : Nat)
    (h : mapGet st.requirements id = none) :
    MemStorage.acceptRequirement st id u now = (none, st) := by
  unfold MemStorage.acceptRequirement
  rw [h]

/-- Witness for C9's theorem on the empty store. -/
theorem acceptRequirement_missing_id_witness :
    MemStorage.acceptRequirement emptyStore 1 9 3 = (none, emptyStore) :=
  acceptRequirement_missing_id emptyStore 1 9 3 (by decide)

/-- Claim C10: whatever the caller supplies, `createUseCase` records status
`"Pending Review"`, no assignee, no assigned group and empty metadata (the
object literal writes these after spreading the caller data), while fields
like the title and priority flow through from the caller. -/
theorem createUseCase_forces_fields (st : MemStorage) (d : InsertUseCaseData) (now : Nat) :
    (MemStorage.createUseCase st d now).1.status = "Pending Review" ∧
    (MemStorage.createUseCase st d now).1.assignedTo = none ∧
    (MemStorage.createUseCase st d now).1.assignedGroup = none ∧
    (MemStorage.createUseCase st d now).1.metadata = [] ∧
    (MemStorage.createUseCase st d now).1.title = d.title ∧
    (MemStorage.createUseCase st d now).1.priority = d.priority :=
  ⟨rfl, rfl, rfl, rfl, rfl, rfl⟩

end SmartSDLC
